import Mathlib

/-!
A shallow embedding of `src/app.py` (the `PyAnalyzer` class of the PyAnalyzer
repository) together with proofs about its specified behaviour.

The application code is a thin wrapper around the pandas / matplotlib /
seaborn / os libraries; the embedding therefore models the library calls the
code makes, at the level of their documented semantics:

* `pandas.Series.value_counts()` counts the non-null values of a column with
  a hash table that preserves first-observation order and then sorts the
  counts in descending order with a stable sort, so ties are broken by the
  order in which values were first observed.  This is modelled by
  `value_counts` below (`dropna`, `firstUniques`, `countsList`, `sortDesc`).
* `pandas.DataFrame.describe()` restricts itself to the numeric
  (`np.number`, i.e. integer / float, not bool) columns, computing
  count / mean / std / min / quartiles / max, the quartiles by linear
  interpolation; when the frame has no such column it falls back to
  describing every column categorically (count / unique / top / freq), and it
  raises on a frame without columns.  Modelled by `DataFrame.describe`.
  The standard deviation reported by pandas is the square root of the sample
  variance (`ddof = 1`); since the square root of a rational is in general
  irrational, `NumStats` records the variance itself in the `variance` field.
* `matplotlib.pyplot.pie(values, autopct=...)` sizes each slice by
  `value / sum values` and annotates it with that fraction times 100; the
  percentages are recorded exactly (as rationals, before `%1.1f` rounding)
  in the `Figure.pieChart` slices.
* `matplotlib.pyplot.savefig(path)` overwrites the file at `path`; modelled
  as a pointwise update of a `FileStore`.
* `os.path.exists` / `os.path.basename` / `os.path.splitext` are modelled by
  `FsFile`-valued file systems, `pyBasename` and `pySplitextStem` (the latter
  follows `posixpath._splitext`: the extension starts at the last dot
  provided some earlier character of the base name is not a dot).
* `pd.read_csv` opens the file (raising `PermissionError`, not
  `FileNotFoundError`, on an existing but unreadable file) and then parses
  it; the parser itself is an abstract parameter of `PyAnalyzer.init`.

Machine floats of the original program are idealised as `Rat`; divisions
that pandas would report as `NaN` (e.g. the mean of an empty column) take
the Lean convention `x / 0 = 0`.
-/

/-! ## Generic list machinery: counting and stable descending sort -/

/-- Index of the first occurrence of `v` in a list (length of the list when
`v` does not occur).  Used to express the first-observation order. -/
def firstIdx {α : Type} [DecidableEq α] : List α → α → Nat
  | [], _ => 0
  | a :: t, v => if a = v then 0 else firstIdx t v + 1

/-- The distinct elements of a list in order of first occurrence, skipping
those already in `seen`. -/
def firstUniquesAux {α : Type} [DecidableEq α] (seen : List α) : List α → List α
  | [] => []
  | a :: t => if a ∈ seen then firstUniquesAux seen t else a :: firstUniquesAux (a :: seen) t

/-- The distinct elements of a list, in order of first occurrence.  This is
the key order produced by the pandas value-counting hash table. -/
def firstUniques {α : Type} [DecidableEq α] (l : List α) : List α :=
  firstUniquesAux [] l

/-- Each distinct element of `l` (in first-occurrence order) paired with its
number of occurrences in `l`. -/
def countsList {α : Type} [DecidableEq α] (l : List α) : List (α × Nat) :=
  (firstUniques l).map fun v => (v, l.count v)

/-- Insert a pair into a list sorted by descending count, after every entry
with a strictly larger count and before every other entry: combined with
`sortDesc`, entries with equal counts keep their input order. -/
def insertRanked {α : Type} (p : α × Nat) : List (α × Nat) → List (α × Nat)
  | [] => [p]
  | q :: r => if p.2 < q.2 then q :: insertRanked p r else p :: q :: r

/-- Stable insertion sort by descending count. -/
def sortDesc {α : Type} : List (α × Nat) → List (α × Nat)
  | [] => []
  | p :: r => insertRanked p (sortDesc r)

/-! ## The data model: cells, columns, data frames -/

/-- The pandas dtypes reachable through `pd.read_csv` without `parse_dates`
(date strings stay `object`). -/
inductive Dtype where
  | int64
  | float64
  | bool
  | object
deriving DecidableEq, Repr

/-- A cell of a data frame: missing (`NaN`), numeric, boolean or textual. -/
inductive Cell where
  | nan
  | num (r : Rat)
  | bool (b : Bool)
  | str (s : String)
deriving DecidableEq, Repr

/-- Whether a cell is missing (`pd.isnull`). -/
def Cell.isNan : Cell → Bool
  | .nan => true
  | _ => false

/-- The numeric value of a cell, if any. -/
def cellRat : Cell → Option Rat
  | .num r => some r
  | _ => none

/-- The value numpy/seaborn plot for a cell of a numeric-dtype column:
numbers as themselves, booleans cast to `1`/`0`; nulls are dropped. -/
def cellNumVal : Cell → Option Rat
  | .num r => some r
  | .bool b => some (if b then 1 else 0)
  | _ => none

/-- The non-null cells of a column, in order (`dropna=True` of
`value_counts`). -/
def dropna (l : List Cell) : List Cell :=
  l.filter fun x => !x.isNan

/-- `pandas.Series.value_counts()`: the distinct non-null values of the
column with their frequencies, sorted by descending frequency; the counting
hash table yields keys in first-observation order and the sort is stable,
so ties stay in first-observation order. -/
def value_counts (l : List Cell) : List (Cell × Nat) :=
  sortDesc (countsList (dropna l))

/-- A named, typed column of a data frame. -/
structure Column where
  name : String
  dtype : Dtype
  cells : List Cell
deriving DecidableEq, Repr

/-- A data frame: an ordered sequence of named columns. -/
structure DataFrame where
  cols : List Column
deriving DecidableEq, Repr

/-- The column labels, in order (`df.columns`). -/
def DataFrame.columnNames (df : DataFrame) : List String :=
  df.cols.map fun c => c.name

/-- The column of the given name, if present (`df[column]`; `read_csv`
de-duplicates column labels, so the first match is the column). -/
def DataFrame.getCol (df : DataFrame) (column : String) : Option Column :=
  df.cols.find? fun c => c.name == column

/-- The number of rows (`len(df)`): the common length of the columns. -/
def DataFrame.nrows (df : DataFrame) : Nat :=
  (df.cols.head?.map fun c => c.cells.length).getD 0

/-- `df.shape`: (row count, column count). -/
def DataFrame.shape (df : DataFrame) : Nat × Nat :=
  (df.nrows, df.cols.length)

/-- The data-frame invariant: every column has the common row count. -/
def DataFrame.Uniform (df : DataFrame) : Prop :=
  ∀ c ∈ df.cols, c.cells.length = df.nrows

/-- `np.number` dtypes: the dtypes `df.describe()` selects by default
(booleans are not `np.number`). -/
def isNumberDtype : Dtype → Bool
  | .int64 => true
  | .float64 => true
  | _ => false

/-- `pd.api.types.is_numeric_dtype`: true for integer, float and boolean
dtypes. -/
def is_numeric_dtype : Dtype → Bool
  | .int64 => true
  | .float64 => true
  | .bool => true
  | .object => false

/-! ## Descriptive statistics (`df.describe()`) -/

/-- Insert into an ascending sorted list of rationals. -/
def insertRat (x : Rat) : List Rat → List Rat
  | [] => [x]
  | y :: r => if x ≤ y then x :: y :: r else y :: insertRat x r

/-- Ascending insertion sort of rationals. -/
def sortRat : List Rat → List Rat
  | [] => []
  | x :: r => insertRat x (sortRat r)

/-- The `q`-quantile of an ascending sorted list using the linear
interpolation rule of `numpy.percentile`: with `h = q * (n - 1)`, the result
is `s[⌊h⌋] + (h - ⌊h⌋) * (s[⌊h⌋ + 1] - s[⌊h⌋])`. -/
def quantileSorted (s : List Rat) (q : Rat) : Rat :=
  if s.length = 0 then 0
  else
    let h : Rat := q * ((s.length : Rat) - 1)
    let i : Nat := h.floor.toNat
    let lo := s.getD i 0
    let hi := s.getD (min (i + 1) (s.length - 1)) 0
    lo + (h - (i : Rat)) * (hi - lo)

/-- The descriptive statistics `describe()` reports for a numeric column.
pandas reports `std`, the square root of the sample variance (`ddof = 1`);
the `variance` field holds that variance exactly. -/
structure NumStats where
  count : Nat
  mean : Rat
  variance : Rat
  min : Rat
  q25 : Rat
  q50 : Rat
  q75 : Rat
  max : Rat
deriving DecidableEq, Repr

/-- The statistics of a numeric column: computed over its non-null numeric
values. -/
def numStats (cells : List Cell) : NumStats :=
  let vals := cells.filterMap cellRat
  let s := sortRat vals
  let n : Nat := vals.length
  let mean : Rat := vals.sum / (n : Rat)
  { count := n
    mean := mean
    variance := ((vals.map fun x => (x - mean) * (x - mean)).sum) / ((n : Rat) - 1)
    min := (s.head?).getD 0
    q25 := quantileSorted s (1 / 4)
    q50 := quantileSorted s (1 / 2)
    q75 := quantileSorted s (3 / 4)
    max := (s.getLast?).getD 0 }

/-- The categorical statistics `describe()` reports for a non-numeric
column: non-null count, number of distinct values, most frequent value and
its frequency. -/
structure CatStats where
  count : Nat
  unique : Nat
  top : Cell
  freq : Nat
deriving DecidableEq, Repr

/-- The categorical statistics of a column (the `top` value is the first
entry of `value_counts`, i.e. ties go to the first-observed value). -/
def objStats (cells : List Cell) : CatStats :=
  { count := (dropna cells).length
    unique := (firstUniques (dropna cells)).length
    top := (((value_counts cells).head?).map fun p => p.1).getD .nan
    freq := (((value_counts cells).head?).map fun p => p.2).getD 0 }

/-- A per-column entry of the `describe()` table. -/
inductive ColStats where
  | numeric (s : NumStats)
  | categorical (s : CatStats)
deriving DecidableEq, Repr

/-- `df.describe()`: statistics of the `np.number` columns; when there is no
such column, every column is described categorically; a frame without
columns raises `ValueError`. -/
def DataFrame.describe (df : DataFrame) : Except String (List (String × ColStats)) :=
  if df.cols.isEmpty then .error "Cannot describe a DataFrame without columns"
  else
    let numeric := df.cols.filter fun c => isNumberDtype c.dtype
    if numeric.isEmpty then
      .ok (df.cols.map fun c => (c.name, ColStats.categorical (objStats c.cells)))
    else
      .ok (numeric.map fun c => (c.name, ColStats.numeric (numStats c.cells)))

/-! ## Errors, summaries, figures, the output store -/

/-- The exceptions the analyzer can raise: `FileNotFoundError` from
`__init__`, the two `ValueError`s of the plotting methods (distinguished
here by raise site), and errors raised through from the libraries. -/
inductive PyError where
  | fileNotFound (msg : String)
  | columnNotFound (msg : String)
  | notNumeric (msg : String)
  | otherError (msg : String)
deriving DecidableEq, Repr

/-- One section of the summary text, in the order `generate_summary`
appends them: header, shape, column list, dtypes, missing-value counts,
descriptive statistics. -/
inductive SummaryItem where
  | header (name : String)
  | shape (s : Nat × Nat)
  | columns (cs : List String)
  | dtypes (ds : List (String × Dtype))
  | missing (ms : List (String × Nat))
  | stats (st : List (String × ColStats))
deriving DecidableEq, Repr

/-- The statistics section of a summary. -/
def summaryStats : List SummaryItem → List (String × ColStats)
  | [] => []
  | .stats st :: _ => st
  | _ :: rest => summaryStats rest

/-- A rendered chart: the data the matplotlib figure displays.  Pie slices
carry (label, count, percentage of the plotted total). -/
inductive Figure where
  | barChart (bars : List (Cell × Nat)) (title xlabel ylabel : String)
  | pieChart (slices : List (Cell × Nat × Rat)) (title : String)
  | histogram (vals : List Rat) (bins : Nat) (kde : Bool) (title xlabel ylabel : String)
deriving DecidableEq, Repr

/-- A serialized figure (`savefig` output). -/
structure Png where
  fig : Figure
deriving DecidableEq, Repr

/-- The relevant file-system state: the set of directories and the written
image files. -/
@[ext]
structure FileStore where
  dirs : List String
  files : String → Option Png

/-- The module-level bootstrap of `app.py`: create `outputs` if absent. -/
def ensureOutputsDir (fs : FileStore) : FileStore :=
  if "outputs" ∈ fs.dirs then fs else { fs with dirs := "outputs" :: fs.dirs }

/-- `plt.savefig(path)`: write (or overwrite) the PNG at `path`. -/
def savefig (path : String) (fig : Figure) (fs : FileStore) : FileStore :=
  { fs with files := fun q => if q = path then some ⟨fig⟩ else fs.files q }

/-! ## The PyAnalyzer class -/

/-- The `PyAnalyzer` object: the loaded data frame and the display name
derived from the source path. -/
structure PyAnalyzer where
  df : DataFrame
  file_name : String
deriving DecidableEq, Repr

/-- `generate_summary`: the sections appended in source order.  The shape /
columns / dtypes / missing sections are the corresponding data-frame
queries; the statistics section is `df.describe()`, whose `ValueError` on a
column-less frame propagates. -/
def PyAnalyzer.generate_summary (a : PyAnalyzer) : Except PyError (List SummaryItem) :=
  match a.df.describe with
  | .error m => .error (.otherError m)
  | .ok st =>
      .ok [ .header a.file_name,
            .shape a.df.shape,
            .columns a.df.columnNames,
            .dtypes (a.df.cols.map fun c => (c.name, c.dtype)),
            .missing (a.df.cols.map fun c => (c.name, c.cells.countP fun x => x.isNan)),
            .stats st ]

/-- `plot_bar_chart(column, top_n, save)`: checks the column exists, takes
the `top_n` head of `value_counts`, renders the horizontal bar chart, and
saves it when asked. -/
def PyAnalyzer.plot_bar_chart (a : PyAnalyzer) (column : String) (top_n : Nat)
    (save : Bool) (fs : FileStore) : Except PyError (Figure × FileStore) :=
  match a.df.getCol column with
  | none => .error (.columnNotFound ("Column " ++ column ++ " not found in dataset."))
  | some c =>
      let vc := (value_counts c.cells).take top_n
      let fig := Figure.barChart vc
        ("Bar Chart of " ++ column ++ " (Top " ++ toString top_n ++ ")") "Count" column
      .ok (fig,
        if save then
          savefig ("outputs/" ++ a.file_name ++ "_" ++ column ++ "_bar_chart.png") fig fs
        else fs)

/-- `plot_pie_chart(column, top_n, save)`: same validation and ranking as
the bar chart; `plt.pie` sizes the slices by count and annotates each with
its percentage of the plotted (top-`top_n`) total. -/
def PyAnalyzer.plot_pie_chart (a : PyAnalyzer) (column : String) (top_n : Nat)
    (save : Bool) (fs : FileStore) : Except PyError (Figure × FileStore) :=
  match a.df.getCol column with
  | none => .error (.columnNotFound ("Column " ++ column ++ " not found in dataset."))
  | some c =>
      let vc := (value_counts c.cells).take top_n
      let total : Nat := (vc.map fun q => q.2).sum
      let slices := vc.map fun p => (p.1, p.2, ((p.2 : Rat) * 100) / (total : Rat))
      let fig := Figure.pieChart slices
        ("Pie Chart of " ++ column ++ " (Top " ++ toString top_n ++ ")")
      .ok (fig,
        if save then
          savefig ("outputs/" ++ a.file_name ++ "_" ++ column ++ "_pie_chart.png") fig fs
        else fs)

/-- `plot_histogram(column, bins, save)`: checks the column exists, then
that its dtype is numeric, then renders the histogram (seaborn drops the
nulls) with a KDE overlay. -/
def PyAnalyzer.plot_histogram (a : PyAnalyzer) (column : String) (bins : Nat)
    (save : Bool) (fs : FileStore) : Except PyError (Figure × FileStore) :=
  match a.df.getCol column with
  | none => .error (.columnNotFound ("Column " ++ column ++ " not found in dataset."))
  | some c =>
      if is_numeric_dtype c.dtype then
        let fig := Figure.histogram (c.cells.filterMap cellNumVal) bins true
          ("Histogram of " ++ column) column "Frequency"
        .ok (fig,
          if save then
            savefig ("outputs/" ++ a.file_name ++ "_" ++ column ++ "_histogram.png") fig fs
          else fs)
      else
        .error (.notNumeric ("Column " ++ column ++ " must be numeric for histogram."))

/-- The figure `plot_bar_chart` renders for the given column name, `top_n`
and cell list. -/
def barFigure (column : String) (top_n : Nat) (cells : List Cell) : Figure :=
  Figure.barChart ((value_counts cells).take top_n)
    ("Bar Chart of " ++ column ++ " (Top " ++ toString top_n ++ ")") "Count" column

/-- The slices `plot_pie_chart` renders: the top `top_n` values with their
counts and percentages of the plotted total. -/
def pieSlices (top_n : Nat) (cells : List Cell) : List (Cell × Nat × Rat) :=
  ((value_counts cells).take top_n).map fun p =>
    (p.1, p.2, ((p.2 : Rat) * 100)
      / (((((value_counts cells).take top_n).map fun q => q.2).sum : Nat) : Rat))

/-- The figure `plot_pie_chart` renders. -/
def pieFigure (column : String) (top_n : Nat) (cells : List Cell) : Figure :=
  Figure.pieChart (pieSlices top_n cells)
    ("Pie Chart of " ++ column ++ " (Top " ++ toString top_n ++ ")")

/-- The figure `plot_histogram` renders. -/
def histFigure (column : String) (bins : Nat) (cells : List Cell) : Figure :=
  Figure.histogram (cells.filterMap cellNumVal) bins true
    ("Histogram of " ++ column) column "Frequency"

/-! ## Construction (`__init__`) over a modelled file system -/

/-- A file as the constructor sees it: whether the process may read it, and
its raw content. -/
structure FsFile where
  readable : Bool
  content : String
deriving DecidableEq, Repr

/-- `os.path.basename`: the part of the path after the last slash. -/
def pyBasename (p : String) : String :=
  ⟨((p.toList.reverse.takeWhile fun c => c != '/').reverse)⟩

/-- The position of the last dot of a list of characters, if any. -/
def lastDotIdx (cs : List Char) : Option Nat :=
  ((cs.enum.filter fun p => p.2 == '.').map fun p => p.1).getLast?

/-- `os.path.splitext(s)[0]` for a directory-free name `s`
(`posixpath._splitext`): drop the suffix starting at the last dot, provided
some earlier character is not a dot (so `".bashrc"` keeps its dot). -/
def pySplitextStem (s : String) : String :=
  match lastDotIdx s.toList with
  | none => s
  | some i => if (s.toList.take i).any (fun c => c != '.') then ⟨s.toList.take i⟩ else s

/-- `PyAnalyzer.__init__(file_path)`: `os.path.exists` first — a missing
path raises `FileNotFoundError` before any read or parse; then
`pd.read_csv` opens the file (an unreadable file raises `PermissionError`)
and parses it with the abstract `parse`; on success the display name is the
base name of the path without its extension. -/
def PyAnalyzer.init (fsys : String → Option FsFile) (parse : String → Option DataFrame)
    (file_path : String) : Except PyError PyAnalyzer :=
  match fsys file_path with
  | none => .error (.fileNotFound ("The file " ++ file_path ++ " does not exist."))
  | some f =>
      if f.readable then
        match parse f.content with
        | some df => .ok { df := df, file_name := pySplitextStem (pyBasename file_path) }
        | none => .error (.otherError "Error tokenizing data.")
      else
        .error (.otherError ("Permission denied: " ++ file_path))

/-! ## A method-call step relation for the immutability claim -/

/-- One user-visible operation on a constructed analyzer. -/
inductive Op where
  | summarize
  | bar (column : String) (top_n : Nat) (save : Bool)
  | pie (column : String) (top_n : Nat) (save : Bool)
  | hist (column : String) (bins : Nat) (save : Bool)

/-- Run one method call: the resulting analyzer state and file store.  None
of the method bodies (`app.py` lines 19-77) assigns to `self.df` or
`self.file_name`, so the analyzer component of the post-state is the
pre-state analyzer; the file store changes only through `savefig`. -/
def runOp (a : PyAnalyzer) (fs : FileStore) : Op → PyAnalyzer × FileStore
  | .summarize => (a, fs)
  | .bar c n s =>
      (a, match a.plot_bar_chart c n s fs with
          | .ok (_, fs') => fs'
          | .error _ => fs)
  | .pie c n s =>
      (a, match a.plot_pie_chart c n s fs with
          | .ok (_, fs') => fs'
          | .error _ => fs)
  | .hist c b s =>
      (a, match a.plot_histogram c b s fs with
          | .ok (_, fs') => fs'
          | .error _ => fs)

/-! ## Concrete fixtures used by witnesses and counterexamples -/

/-- The textual column of the worked example of the specification. -/
def cityCol : Column :=
  ⟨"city", .object, [.str "a", .str "a", .str "b", .str "c", .str "a", .str "b"]⟩

/-- A numeric column of the same length. -/
def priceCol : Column :=
  ⟨"price", .int64, [.num 4, .num 2, .num 2, .num 5, .num 1, .num 3]⟩

/-- A small concrete data frame with a textual and a numeric column. -/
def exDf : DataFrame := ⟨[cityCol, priceCol]⟩

/-- An analyzer over `exDf`, as constructed from `data/sales.csv`. -/
def exA : PyAnalyzer := ⟨exDf, "sales"⟩

/-- An empty file store. -/
def exFs0 : FileStore := ⟨[], fun _ => none⟩

/-- A file system with one readable file at `data/sales.csv`. -/
def exFsM : String → Option FsFile :=
  fun p => if p = "data/sales.csv" then some ⟨true, "raw"⟩ else none

/-- A file system with one existing but unreadable file. -/
def exFsU : String → Option FsFile :=
  fun p => if p = "data/secret.csv" then some ⟨false, "raw"⟩ else none

/-- A parser mapping the fixture content to the fixture frame. -/
def exParse : String → Option DataFrame :=
  fun s => if s = "raw" then some exDf else none

/-- A data frame consisting of a single textual column. -/
def exObjDf : DataFrame := ⟨[⟨"label", .object, [.str "x"]⟩]⟩

/-- An analyzer over the all-textual frame. -/
def exObjA : PyAnalyzer := ⟨exObjDf, "t"⟩

/-- The summary `generate_summary` produces for `exObjA`. -/
def exObjSummary : List SummaryItem :=
  [ .header "t",
    .shape (1, 1),
    .columns ["label"],
    .dtypes [("label", .object)],
    .missing [("label", 0)],
    .stats [("label", .categorical ⟨1, 1, .str "x", 1⟩)] ]

/-- A boolean column, as `read_csv` infers for a True/False column. -/
def boolCol : Column := ⟨"flag", .bool, [.bool true, .bool false, .bool true]⟩

/-- An analyzer over a single boolean column. -/
def exBoolA : PyAnalyzer := ⟨⟨[boolCol]⟩, "flags"⟩

deriving instance DecidableEq for Except

instance (df : DataFrame) : Decidable df.Uniform :=
  inferInstanceAs (Decidable (∀ c ∈ df.cols, c.cells.length = df.nrows))

/-! ## Lemmas on the generic machinery -/

section GenericLemmas
variable {α : Type} [DecidableEq α]

theorem mem_firstUniquesAux {seen l : List α} {x : α} :
    x ∈ firstUniquesAux seen l ↔ x ∈ l ∧ x ∉ seen := by
  induction l generalizing seen with
  | nil => simp [firstUniquesAux]
  | cons a t ih =>
    rw [firstUniquesAux]
    by_cases ha : a ∈ seen
    · rw [if_pos ha, ih]
      constructor
      · rintro ⟨hx, hs⟩; exact ⟨List.mem_cons_of_mem a hx, hs⟩
      · rintro ⟨hx, hs⟩
        rcases List.mem_cons.mp hx with rfl | hx
        · exact absurd ha hs
        · exact ⟨hx, hs⟩
    · rw [if_neg ha]
      constructor
      · intro hx
        rcases List.mem_cons.mp hx with rfl | hx
        · exact ⟨List.mem_cons_self x t, ha⟩
        · rcases ih.mp hx with ⟨h1, h2⟩
          exact ⟨List.mem_cons_of_mem a h1, fun hs => h2 (List.mem_cons_of_mem a hs)⟩
      · rintro ⟨hx, hs⟩
        by_cases hxa : x = a
        · subst hxa; exact List.mem_cons_self x _
        · rcases List.mem_cons.mp hx with rfl | hx
          · exact absurd rfl hxa
          · refine List.mem_cons_of_mem a (ih.mpr ⟨hx, fun hs' => ?_⟩)
            rcases List.mem_cons.mp hs' with h | h
            · exact hxa h
            · exact hs h

theorem nodup_firstUniquesAux (seen l : List α) : (firstUniquesAux seen l).Nodup := by
  induction l generalizing seen with
  | nil => simp [firstUniquesAux]
  | cons a t ih =>
    rw [firstUniquesAux]
    by_cases ha : a ∈ seen
    · rw [if_pos ha]; exact ih seen
    · rw [if_neg ha]
      refine List.nodup_cons.mpr ⟨fun hmem => ?_, ih (a :: seen)⟩
      exact (mem_firstUniquesAux.mp hmem).2 (List.mem_cons_self a seen)

theorem pairwise_firstIdx_firstUniquesAux (seen l : List α) :
    (firstUniquesAux seen l).Pairwise fun x y => firstIdx l x < firstIdx l y := by
  induction l generalizing seen with
  | nil => simp [firstUniquesAux]
  | cons a t ih =>
    rw [firstUniquesAux]
    by_cases ha : a ∈ seen
    · rw [if_pos ha]
      refine (ih seen).imp_of_mem ?_
      intro x y hx hy hlt
      have hxa : ¬ a = x := fun h => (mem_firstUniquesAux.mp hx).2 (h ▸ ha)
      have hya : ¬ a = y := fun h => (mem_firstUniquesAux.mp hy).2 (h ▸ ha)
      simpa [firstIdx, if_neg hxa, if_neg hya] using Nat.succ_lt_succ hlt
    · rw [if_neg ha]
      refine List.pairwise_cons.mpr ⟨fun y hy => ?_, ?_⟩
      · have hya : ¬ a = y :=
          fun h => (mem_firstUniquesAux.mp hy).2 (h ▸ List.mem_cons_self a seen)
        simp [firstIdx, if_neg hya]
      · refine (ih (a :: seen)).imp_of_mem ?_
        intro x y hx hy hlt
        have hxa : ¬ a = x :=
          fun h => (mem_firstUniquesAux.mp hx).2 (h ▸ List.mem_cons_self a seen)
        have hya : ¬ a = y :=
          fun h => (mem_firstUniquesAux.mp hy).2 (h ▸ List.mem_cons_self a seen)
        simpa [firstIdx, if_neg hxa, if_neg hya] using Nat.succ_lt_succ hlt

theorem mem_firstUniques {l : List α} {x : α} : x ∈ firstUniques l ↔ x ∈ l := by
  simp [firstUniques, mem_firstUniquesAux]

theorem nodup_firstUniques (l : List α) : (firstUniques l).Nodup :=
  nodup_firstUniquesAux [] l

theorem pairwise_firstIdx_firstUniques (l : List α) :
    (firstUniques l).Pairwise fun x y => firstIdx l x < firstIdx l y :=
  pairwise_firstIdx_firstUniquesAux [] l

theorem firstUniques_perm_dedup (l : List α) : List.Perm (firstUniques l) l.dedup :=
  (List.perm_ext_iff_of_nodup (nodup_firstUniques l) l.nodup_dedup).mpr
    (fun x => by rw [mem_firstUniques, List.mem_dedup])

theorem map_fst_countsList (l : List α) :
    (countsList l).map Prod.fst = firstUniques l := by
  rw [countsList, List.map_map]
  exact List.map_id'' (fun _ => rfl) _

theorem fst_mem_of_mem_countsList {l : List α} {p : α × Nat} (h : p ∈ countsList l) :
    p.1 ∈ firstUniques l := by
  rcases List.mem_map.mp h with ⟨v, hv, rfl⟩
  exact hv

theorem snd_of_mem_countsList {l : List α} {p : α × Nat} (h : p ∈ countsList l) :
    p.2 = l.count p.1 := by
  rcases List.mem_map.mp h with ⟨v, _, rfl⟩
  rfl

theorem sum_countsList (l : List α) :
    ((countsList l).map fun p => p.2).sum = l.length := by
  have h1 : ((countsList l).map fun p => p.2) = (firstUniques l).map fun v => l.count v := by
    rw [countsList, List.map_map]; rfl
  have h2 : List.Perm ((firstUniques l).map fun v => l.count v)
      (l.dedup.map fun v => l.count v) :=
    (firstUniques_perm_dedup l).map _
  rw [h1, h2.sum_eq, List.sum_map_count_dedup_eq_length]

theorem perm_insertRanked (p : α × Nat) (l : List (α × Nat)) :
    List.Perm (insertRanked p l) (p :: l) := by
  induction l with
  | nil => exact List.Perm.refl _
  | cons q r ih =>
    by_cases h : p.2 < q.2
    · rw [insertRanked, if_pos h]
      exact ((ih.cons q).trans (List.Perm.swap p q r))
    · rw [insertRanked, if_neg h]

theorem perm_sortDesc (l : List (α × Nat)) : List.Perm (sortDesc l) l := by
  induction l with
  | nil => exact List.Perm.refl _
  | cons p r ih =>
    exact (perm_insertRanked p (sortDesc r)).trans (ih.cons p)

theorem pairwise_insertRanked {S : α × Nat → α × Nat → Prop} (p : α × Nat)
    {l : List (α × Nat)}
    (hl : l.Pairwise fun x y => y.2 < x.2 ∨ (x.2 = y.2 ∧ S x y))
    (hS : ∀ q ∈ l, p.2 = q.2 → S p q) :
    (insertRanked p l).Pairwise fun x y => y.2 < x.2 ∨ (x.2 = y.2 ∧ S x y) := by
  induction l with
  | nil => simp [insertRanked]
  | cons q r ih =>
    rcases List.pairwise_cons.mp hl with ⟨hq, hr⟩
    by_cases h : p.2 < q.2
    · rw [insertRanked, if_pos h]
      refine List.pairwise_cons.mpr
        ⟨?_, ih hr (fun x hx hxeq => hS x (List.mem_cons_of_mem q hx) hxeq)⟩
      intro x hx
      rcases List.mem_cons.mp ((perm_insertRanked p r).mem_iff.mp hx) with rfl | hx'
      · exact Or.inl h
      · exact hq x hx'
    · rw [insertRanked, if_neg h]
      refine List.pairwise_cons.mpr ⟨?_, hl⟩
      intro x hx
      have hqp : q.2 ≤ p.2 := Nat.le_of_not_lt h
      have hxle : x.2 ≤ p.2 := by
        rcases List.mem_cons.mp hx with rfl | hx'
        · exact hqp
        · rcases hq x hx' with hlt | ⟨heq, _⟩
          · exact Nat.le_trans (Nat.le_of_lt hlt) hqp
          · exact heq ▸ hqp
      rcases Nat.lt_or_ge x.2 p.2 with hlt | hge
      · exact Or.inl hlt
      · have hpx : p.2 = x.2 := Nat.le_antisymm hge hxle
        exact Or.inr ⟨hpx, hS x hx hpx⟩

theorem pairwise_sortDesc {S : α × Nat → α × Nat → Prop} {l : List (α × Nat)}
    (hl : l.Pairwise S) :
    (sortDesc l).Pairwise fun x y => y.2 < x.2 ∨ (x.2 = y.2 ∧ S x y) := by
  induction l with
  | nil => simp [sortDesc]
  | cons p r ih =>
    rcases List.pairwise_cons.mp hl with ⟨hp, hr⟩
    exact pairwise_insertRanked p (ih hr)
      (fun q hq _ => hp q ((perm_sortDesc r).subset hq))

end GenericLemmas

/-! ## Lemmas on `value_counts` and column lookup -/

theorem value_counts_perm (l : List Cell) :
    List.Perm (value_counts l) (countsList (dropna l)) :=
  perm_sortDesc _

theorem value_counts_keys_nodup (l : List Cell) :
    ((value_counts l).map Prod.fst).Nodup := by
  have h := (value_counts_perm l).map Prod.fst
  rw [map_fst_countsList] at h
  exact h.symm.nodup (nodup_firstUniques _)

theorem mem_value_counts_keys (l : List Cell) (v : Cell) :
    v ∈ (value_counts l).map Prod.fst ↔ v ∈ dropna l := by
  have h := (value_counts_perm l).map Prod.fst
  rw [map_fst_countsList] at h
  rw [h.mem_iff, mem_firstUniques]

theorem count_of_mem_value_counts {l : List Cell} {p : Cell × Nat}
    (h : p ∈ value_counts l) : p.2 = (dropna l).count p.1 :=
  snd_of_mem_countsList ((value_counts_perm l).subset h)

theorem fst_mem_dropna_of_mem_value_counts {l : List Cell} {p : Cell × Nat}
    (h : p ∈ value_counts l) : p.1 ∈ dropna l :=
  mem_firstUniques.mp (fst_mem_of_mem_countsList ((value_counts_perm l).subset h))

theorem pos_of_mem_value_counts {l : List Cell} {p : Cell × Nat}
    (h : p ∈ value_counts l) : 0 < p.2 := by
  rw [count_of_mem_value_counts h]
  exact List.count_pos_iff.mpr (fst_mem_dropna_of_mem_value_counts h)

theorem value_counts_pairwise (l : List Cell) :
    (value_counts l).Pairwise fun p q =>
      q.2 < p.2 ∨ (p.2 = q.2 ∧ firstIdx (dropna l) p.1 < firstIdx (dropna l) q.1) := by
  refine pairwise_sortDesc ?_
  have h := pairwise_firstIdx_firstUniques (dropna l)
  rw [countsList]
  exact List.pairwise_map.mpr h

theorem value_counts_length (l : List Cell) :
    (value_counts l).length = (firstUniques (dropna l)).length := by
  rw [(value_counts_perm l).length_eq, countsList, List.length_map]

theorem value_counts_sum (l : List Cell) :
    ((value_counts l).map fun p => p.2).sum = (dropna l).length := by
  rw [((value_counts_perm l).map fun p => p.2).sum_eq, sum_countsList]

theorem value_counts_take_sum_lt {l : List Cell} {n : Nat}
    (hn : n < (value_counts l).length) :
    (((value_counts l).take n).map fun p => p.2).sum < (dropna l).length := by
  have hsplit :
      (((value_counts l).take n).map fun p => p.2).sum
        + (((value_counts l).drop n).map fun p => p.2).sum
        = (dropna l).length := by
    rw [← List.sum_append, ← List.map_append, List.take_append_drop, value_counts_sum]
  have hne : (value_counts l).drop n ≠ [] := by
    intro h
    have := List.drop_eq_nil_iff.mp h
    omega
  rcases List.exists_mem_of_ne_nil _ hne with ⟨p, hp⟩
  have hmem : p ∈ value_counts l := List.mem_of_mem_drop hp
  have hpos : 0 < p.2 := pos_of_mem_value_counts hmem
  have hle : p.2 ≤ (((value_counts l).drop n).map fun p => p.2).sum :=
    List.le_sum_of_mem (List.mem_map_of_mem _ hp)
  omega

theorem getCol_eq_none_of_not_mem {df : DataFrame} {column : String}
    (h : column ∉ df.columnNames) : df.getCol column = none := by
  rw [DataFrame.getCol, List.find?_eq_none]
  intro c hc hbeq
  have hname : c.name = column := by simpa using hbeq
  exact h (hname ▸ List.mem_map_of_mem (fun c => c.name) hc)

/-! ## Reduction lemmas for the plotting methods -/

theorem plot_bar_chart_eq {a : PyAnalyzer} {column : String} {c : Column}
    (hc : a.df.getCol column = some c) (top_n : Nat) (save : Bool) (fs : FileStore) :
    a.plot_bar_chart column top_n save fs =
      .ok (barFigure column top_n c.cells,
        if save then
          savefig ("outputs/" ++ a.file_name ++ "_" ++ column ++ "_bar_chart.png")
            (barFigure column top_n c.cells) fs
        else fs) := by
  simp only [PyAnalyzer.plot_bar_chart, hc, barFigure]

theorem plot_pie_chart_eq {a : PyAnalyzer} {column : String} {c : Column}
    (hc : a.df.getCol column = some c) (top_n : Nat) (save : Bool) (fs : FileStore) :
    a.plot_pie_chart column top_n save fs =
      .ok (pieFigure column top_n c.cells,
        if save then
          savefig ("outputs/" ++ a.file_name ++ "_" ++ column ++ "_pie_chart.png")
            (pieFigure column top_n c.cells) fs
        else fs) := by
  simp only [PyAnalyzer.plot_pie_chart, hc, pieFigure, pieSlices]

theorem plot_histogram_eq {a : PyAnalyzer} {column : String} {c : Column}
    (hc : a.df.getCol column = some c) (hnum : is_numeric_dtype c.dtype = true)
    (bins : Nat) (save : Bool) (fs : FileStore) :
    a.plot_histogram column bins save fs =
      .ok (histFigure column bins c.cells,
        if save then
          savefig ("outputs/" ++ a.file_name ++ "_" ++ column ++ "_histogram.png")
            (histFigure column bins c.cells) fs
        else fs) := by
  simp only [PyAnalyzer.plot_histogram, hc, hnum, if_true, histFigure]

/-! ## Claim theorems -/

/-- C1: for every dataset column and positive `topN`, the values
`plot_bar_chart` and `plot_pie_chart` render are `value_counts` of the
column truncated to `topN`, where `value_counts` lists every distinct
non-null value exactly once with its frequency, ranked by descending count
with ties broken by first-observation order; in particular on
`["a","a","b","c","a","b"]` with `topN = 2` the selection is
`a` (count 3) then `b` (count 2). -/
theorem bar_pie_selection_ranking
    (a : PyAnalyzer) (column : String) (c : Column) (top_n : Nat) (save : Bool)
    (fs : FileStore) (hc : a.df.getCol column = some c) (hpos : 0 < top_n) :
    (∃ fs1, a.plot_bar_chart column top_n save fs =
        .ok (Figure.barChart ((value_counts c.cells).take top_n)
          ("Bar Chart of " ++ column ++ " (Top " ++ toString top_n ++ ")") "Count" column,
          fs1)) ∧
    (∃ fs2 slices, a.plot_pie_chart column top_n save fs =
        .ok (Figure.pieChart slices
          ("Pie Chart of " ++ column ++ " (Top " ++ toString top_n ++ ")"), fs2) ∧
        slices.map (fun s => (s.1, s.2.1)) = (value_counts c.cells).take top_n) ∧
    ((value_counts c.cells).map Prod.fst).Nodup ∧
    (∀ v, v ∈ (value_counts c.cells).map Prod.fst ↔ v ∈ dropna c.cells) ∧
    (∀ p ∈ value_counts c.cells, p.2 = (dropna c.cells).count p.1) ∧
    ((value_counts c.cells).Pairwise fun p q =>
      q.2 < p.2 ∨
        (p.2 = q.2 ∧ firstIdx (dropna c.cells) p.1 < firstIdx (dropna c.cells) q.1)) ∧
    (value_counts [Cell.str "a", Cell.str "a", Cell.str "b", Cell.str "c",
        Cell.str "a", Cell.str "b"]).take 2 = [(Cell.str "a", 3), (Cell.str "b", 2)] := by
  refine ⟨⟨_, plot_bar_chart_eq hc top_n save fs⟩,
    ⟨_, pieSlices top_n c.cells, plot_pie_chart_eq hc top_n save fs, ?_⟩,
    value_counts_keys_nodup _, mem_value_counts_keys _,
    (fun p hp => count_of_mem_value_counts hp), value_counts_pairwise _, by decide⟩
  rw [pieSlices, List.map_map]
  exact List.map_id'' (fun _ => rfl) _

/-- Witness for C1 at the worked example of the specification. -/
theorem bar_pie_selection_ranking_witness :
    exA.df.getCol "city" = some cityCol ∧ 0 < 2 ∧
    (value_counts [Cell.str "a", Cell.str "a", Cell.str "b", Cell.str "c",
        Cell.str "a", Cell.str "b"]).take 2 = [(Cell.str "a", 3), (Cell.str "b", 2)] :=
  ⟨by decide, by decide,
    (bar_pie_selection_ranking exA "city" cityCol 2 false exFs0
      (by decide) (by decide)).2.2.2.2.2.2⟩

/-- C2 (amended): constructing an analyzer over a path that does not exist
fails with `FileNotFoundError` naming the missing path, before any parse
attempt (the result does not depend on the parser); over an existing,
readable file whose content parses, construction succeeds and the display
name is the base name of the path with directory and extension stripped.
(Readability is not checked separately: see the counterexample.) -/
theorem init_spec (fsys : String → Option FsFile) (parse : String → Option DataFrame)
    (path : String) :
    (fsys path = none →
      PyAnalyzer.init fsys parse path =
        .error (.fileNotFound ("The file " ++ path ++ " does not exist.")) ∧
      ∀ parse2, PyAnalyzer.init fsys parse2 path = PyAnalyzer.init fsys parse path) ∧
    (∀ f df, fsys path = some f → f.readable = true → parse f.content = some df →
      PyAnalyzer.init fsys parse path = .ok ⟨df, pySplitextStem (pyBasename path)⟩) := by
  constructor
  · intro hnone
    constructor
    · simp [PyAnalyzer.init, hnone]
    · intro parse2
      simp [PyAnalyzer.init, hnone]
  · intro f df hsome hread hparse
    simp [PyAnalyzer.init, hsome, hread, hparse]

/-- Witness for C2: a missing path yields `FileNotFoundError` naming it; an
existing readable parseable file yields an analyzer whose display name is
the base name without extension. -/
theorem init_spec_witness :
    PyAnalyzer.init exFsM exParse "data/missing.csv" =
      .error (.fileNotFound ("The file " ++ "data/missing.csv" ++ " does not exist.")) ∧
    PyAnalyzer.init exFsM exParse "data/sales.csv" = .ok ⟨exDf, "sales"⟩ := by
  constructor
  · exact ((init_spec exFsM exParse "data/missing.csv").1 (by decide)).1
  · have h := (init_spec exFsM exParse "data/sales.csv").2 ⟨true, "raw"⟩ exDf
      (by decide) (by decide) (by decide)
    exact h.trans (by decide)

/-- Counterexample for C2 as stated: `data/secret.csv` exists but is not
readable, so it is not an "existing, readable resource", yet construction
does not fail with `FileNotFoundError` — the `os.path.exists` check passes
and the subsequent read raises `PermissionError` instead. -/
theorem init_unreadable_not_fileNotFound :
    (∃ f, exFsU "data/secret.csv" = some f ∧ f.readable = false) ∧
    PyAnalyzer.init exFsU exParse "data/secret.csv" =
      .error (.otherError ("Permission denied: " ++ "data/secret.csv")) ∧
    ∀ msg, PyAnalyzer.init exFsU exParse "data/secret.csv" ≠
      .error (.fileNotFound msg) := by
  refine ⟨⟨⟨false, "raw"⟩, by decide, rfl⟩, by decide, ?_⟩
  intro msg h
  rw [show PyAnalyzer.init exFsU exParse "data/secret.csv" =
    .error (.otherError ("Permission denied: " ++ "data/secret.csv")) from by decide] at h
  exact PyError.noConfusion (Except.error.inj h)

/-- C3 (amended): `plot_histogram` on a present column whose dtype fails
the code's numeric test (`pd.api.types.is_numeric_dtype`, false exactly for
textual columns) fails with the `NotNumericError` `ValueError` and never
with the `ColumnNotFoundError` one — the existence check precedes the dtype
check; a present boolean-kind column, though its declared kind is not
numeric in the data model's taxonomy, passes that test and the histogram
succeeds. -/
theorem histogram_kind_check
    (a : PyAnalyzer) (column : String) (c : Column) (bins : Nat) (save : Bool)
    (fs : FileStore) (hc : a.df.getCol column = some c) :
    (is_numeric_dtype c.dtype = false →
      a.plot_histogram column bins save fs =
        .error (.notNumeric ("Column " ++ column ++ " must be numeric for histogram.")) ∧
      ∀ msg, a.plot_histogram column bins save fs ≠ .error (.columnNotFound msg)) ∧
    (c.dtype = Dtype.bool →
      ∃ r, a.plot_histogram column bins save fs = .ok r) := by
  constructor
  · intro hnn
    have heq : a.plot_histogram column bins save fs =
        .error (.notNumeric ("Column " ++ column ++ " must be numeric for histogram.")) := by
      simp [PyAnalyzer.plot_histogram, hc, hnn]
    refine ⟨heq, fun msg h => ?_⟩
    rw [heq] at h
    exact PyError.noConfusion (Except.error.inj h)
  · intro hb
    have hnum : is_numeric_dtype c.dtype = true := by rw [hb]; rfl
    exact ⟨_, plot_histogram_eq hc hnum bins save fs⟩

/-- Witness for C3 at the textual `city` column. -/
theorem histogram_kind_check_witness :
    exA.df.getCol "city" = some cityCol ∧ is_numeric_dtype cityCol.dtype = false ∧
    exA.plot_histogram "city" 10 false exFs0 =
      .error (.notNumeric ("Column " ++ "city" ++ " must be numeric for histogram.")) :=
  ⟨by decide, by decide,
    ((histogram_kind_check exA "city" cityCol 10 false exFs0 (by decide)).1
      (by decide)).1⟩

/-- Counterexample for C3 as stated: the boolean column `flag` has declared
kind boolean — not one of the numeric kinds — yet `plot_histogram` succeeds
on it rather than failing with `NotNumericError`: pandas `is_numeric_dtype`
accepts boolean dtypes, and the booleans are plotted as `1`/`0`. -/
theorem histogram_bool_column_succeeds :
    exBoolA.df.getCol "flag" = some boolCol ∧
    boolCol.dtype = Dtype.bool ∧
    isNumberDtype boolCol.dtype = false ∧
    exBoolA.plot_histogram "flag" 10 false exFs0 =
      .ok (histFigure "flag" 10 boolCol.cells, exFs0) ∧
    ∀ msg, exBoolA.plot_histogram "flag" 10 false exFs0 ≠
      .error (.notNumeric msg) := by
  refine ⟨by decide, rfl, rfl, rfl, ?_⟩
  intro msg h
  rw [show exBoolA.plot_histogram "flag" 10 false exFs0 =
    .ok (histFigure "flag" 10 boolCol.cells, exFs0) from rfl] at h
  exact Except.noConfusion h

/-- C4: each plotting method on a column name absent from the dataset fails
with the `ColumnNotFoundError` `ValueError`, whose message contains the
requested column name. -/
theorem unknown_column_errors
    (a : PyAnalyzer) (column : String) (top_n bins : Nat) (save : Bool) (fs : FileStore)
    (h : column ∉ a.df.columnNames) :
    a.plot_bar_chart column top_n save fs =
      .error (.columnNotFound ("Column " ++ column ++ " not found in dataset.")) ∧
    a.plot_pie_chart column top_n save fs =
      .error (.columnNotFound ("Column " ++ column ++ " not found in dataset.")) ∧
    a.plot_histogram column bins save fs =
      .error (.columnNotFound ("Column " ++ column ++ " not found in dataset.")) ∧
    ∃ pre post, ("Column " ++ column ++ " not found in dataset.") = pre ++ column ++ post := by
  have hnone := getCol_eq_none_of_not_mem h
  exact ⟨by simp [PyAnalyzer.plot_bar_chart, hnone],
    by simp [PyAnalyzer.plot_pie_chart, hnone],
    by simp [PyAnalyzer.plot_histogram, hnone],
    "Column ", " not found in dataset.", rfl⟩

/-- Witness for C4 at a column name not in the fixture dataset. -/
theorem unknown_column_errors_witness :
    "country" ∉ exA.df.columnNames ∧
    exA.plot_bar_chart "country" 10 false exFs0 =
      .error (.columnNotFound ("Column " ++ "country" ++ " not found in dataset.")) :=
  ⟨by decide,
    (unknown_column_errors exA "country" 10 10 false exFs0 (by decide)).1⟩

/-- C5 (amended): `generate_summary` on a frame with at least one column
returns, in order, the display-name header, the shape (equal to the actual
row and column counts), the column names in original order, the per-column
dtypes, the per-column missing-value counts (each equal to the true number
of missing cells), and descriptive statistics — restricted to the numeric
(`np.number`) columns when at least one exists, and otherwise (the pandas
fallback) covering every column categorically. -/
theorem generate_summary_spec (a : PyAnalyzer) (hne : a.df.cols ≠ [])
    (hu : a.df.Uniform) :
    ∃ st,
      a.generate_summary = .ok
        [ .header a.file_name,
          .shape (a.df.nrows, a.df.cols.length),
          .columns (a.df.cols.map fun c => c.name),
          .dtypes (a.df.cols.map fun c => (c.name, c.dtype)),
          .missing (a.df.cols.map fun c => (c.name, c.cells.countP fun x => x.isNan)),
          .stats st ] ∧
      (∀ c ∈ a.df.cols, c.cells.length = a.df.nrows) ∧
      ((a.df.cols.filter fun c => isNumberDtype c.dtype) ≠ [] →
        st = (a.df.cols.filter fun c => isNumberDtype c.dtype).map
          fun c => (c.name, ColStats.numeric (numStats c.cells))) ∧
      ((a.df.cols.filter fun c => isNumberDtype c.dtype) = [] →
        st = a.df.cols.map fun c => (c.name, ColStats.categorical (objStats c.cells))) := by
  have hisE : a.df.cols.isEmpty = false := by
    cases hcols : a.df.cols
    · exact absurd hcols hne
    · rfl
  cases hnum : (a.df.cols.filter fun c => isNumberDtype c.dtype).isEmpty
  · refine ⟨(a.df.cols.filter fun c => isNumberDtype c.dtype).map
        fun c => (c.name, ColStats.numeric (numStats c.cells)), ?_, hu, fun _ => rfl, ?_⟩
    · simp [PyAnalyzer.generate_summary, DataFrame.describe, hisE, hnum,
        DataFrame.shape, DataFrame.columnNames]
    · intro heq
      rw [heq] at hnum
      exact Bool.noConfusion hnum
  · refine ⟨a.df.cols.map fun c => (c.name, ColStats.categorical (objStats c.cells)),
      ?_, hu, ?_, fun _ => rfl⟩
    · simp [PyAnalyzer.generate_summary, DataFrame.describe, hisE, hnum,
        DataFrame.shape, DataFrame.columnNames]
    · intro hne2
      exact absurd (List.isEmpty_iff.mp hnum) hne2

/-- Witness for C5 at the two-column fixture (one numeric column). -/
theorem generate_summary_spec_witness :
    exA.df.cols ≠ [] ∧ DataFrame.Uniform exA.df ∧
    ∃ st,
      exA.generate_summary = .ok
        [ .header exA.file_name,
          .shape (exA.df.nrows, exA.df.cols.length),
          .columns (exA.df.cols.map fun c => c.name),
          .dtypes (exA.df.cols.map fun c => (c.name, c.dtype)),
          .missing (exA.df.cols.map fun c => (c.name, c.cells.countP fun x => x.isNan)),
          .stats st ] ∧
      (∀ c ∈ exA.df.cols, c.cells.length = exA.df.nrows) ∧
      ((exA.df.cols.filter fun c => isNumberDtype c.dtype) ≠ [] →
        st = (exA.df.cols.filter fun c => isNumberDtype c.dtype).map
          fun c => (c.name, ColStats.numeric (numStats c.cells))) ∧
      ((exA.df.cols.filter fun c => isNumberDtype c.dtype) = [] →
        st = exA.df.cols.map fun c => (c.name, ColStats.categorical (objStats c.cells))) :=
  ⟨by decide, by decide, generate_summary_spec exA (by decide) (by decide)⟩

/-- Counterexample for C5 as stated: over an all-textual frame the
statistics section of the summary is not restricted to numeric columns —
pandas `describe()` falls back to describing the textual column, so the
section names a column that is not numeric (the set of numeric columns is
empty). -/
theorem summary_stats_not_numeric_only :
    exObjA.generate_summary = .ok exObjSummary ∧
    summaryStats exObjSummary = [("label", ColStats.categorical ⟨1, 1, Cell.str "x", 1⟩)] ∧
    (exObjA.df.cols.filter fun c => isNumberDtype c.dtype) = [] ∧
    ¬ (∀ e ∈ summaryStats exObjSummary,
        e.1 ∈ (exObjA.df.cols.filter fun c => isNumberDtype c.dtype).map fun c => c.name) := by
  decide

/-- C6: when `topN` is smaller than the number of distinct values of the
column, each pie slice's percentage is its count divided by the total of
the selected top-`topN` subset (times 100) — and that subset total is
strictly smaller than the full column total, which equals the number of
non-null cells; values outside the top `topN` label no slice at all. -/
theorem pie_percentages_over_subset
    (a : PyAnalyzer) (column : String) (c : Column) (top_n : Nat) (save : Bool)
    (fs : FileStore) (hc : a.df.getCol column = some c) (hpos : 0 < top_n)
    (hlt : top_n < (firstUniques (dropna c.cells)).length) :
    (∃ fs1, a.plot_pie_chart column top_n save fs =
        .ok (Figure.pieChart (pieSlices top_n c.cells)
          ("Pie Chart of " ++ column ++ " (Top " ++ toString top_n ++ ")"), fs1)) ∧
    pieSlices top_n c.cells = ((value_counts c.cells).take top_n).map
      (fun p => (p.1, p.2, ((p.2 : Rat) * 100)
        / (((((value_counts c.cells).take top_n).map fun q => q.2).sum : Nat) : Rat))) ∧
    ((value_counts c.cells).map fun q => q.2).sum = (dropna c.cells).length ∧
    (((value_counts c.cells).take top_n).map fun q => q.2).sum < (dropna c.cells).length ∧
    (∀ v, v ∈ dropna c.cells → v ∉ ((value_counts c.cells).take top_n).map Prod.fst →
      ∀ s ∈ pieSlices top_n c.cells, s.1 ≠ v) := by
  refine ⟨⟨_, plot_pie_chart_eq hc top_n save fs⟩, rfl, value_counts_sum _, ?_, ?_⟩
  · apply value_counts_take_sum_lt
    rw [value_counts_length]
    exact hlt
  · intro v hv hnot s hs
    rcases List.mem_map.mp hs with ⟨p, hp, rfl⟩
    intro heq
    exact hnot (heq ▸ List.mem_map_of_mem Prod.fst hp)

/-- Witness for C6: `city` has 3 distinct values; with `topN = 2` the
subset total (5) is strictly below the column total (6). -/
theorem pie_percentages_over_subset_witness :
    exA.df.getCol "city" = some cityCol ∧ 0 < 2 ∧
    2 < (firstUniques (dropna cityCol.cells)).length ∧
    (((value_counts cityCol.cells).take 2).map fun q => q.2).sum <
      (dropna cityCol.cells).length :=
  ⟨by decide, by decide, by decide,
    (pie_percentages_over_subset exA "city" cityCol 2 false exFs0
      (by decide) (by decide) (by decide)).2.2.2.1⟩

theorem savefig_spec (path : String) (fig : Figure) (fs : FileStore) :
    (savefig path fig fs).files path = some ⟨fig⟩ ∧
    (∀ q, q ≠ path → (savefig path fig fs).files q = fs.files q) ∧
    (savefig path fig fs).dirs = fs.dirs ∧
    savefig path fig (savefig path fig fs) = savefig path fig fs := by
  refine ⟨by simp [savefig], fun q hq => by simp [savefig, hq], rfl, ?_⟩
  refine FileStore.ext rfl ?_
  funext q
  by_cases hq : q = path
  · subst hq; simp [savefig]
  · simp [savefig, hq]

theorem plot_bar_chart_save_eq {a : PyAnalyzer} {column : String} {c : Column}
    (hc : a.df.getCol column = some c) (top_n : Nat) (fs : FileStore) :
    a.plot_bar_chart column top_n true fs =
      .ok (barFigure column top_n c.cells,
        savefig ("outputs/" ++ a.file_name ++ "_" ++ column ++ "_bar_chart.png")
          (barFigure column top_n c.cells) fs) := by
  simp [plot_bar_chart_eq hc top_n true fs]

theorem plot_pie_chart_save_eq {a : PyAnalyzer} {column : String} {c : Column}
    (hc : a.df.getCol column = some c) (top_n : Nat) (fs : FileStore) :
    a.plot_pie_chart column top_n true fs =
      .ok (pieFigure column top_n c.cells,
        savefig ("outputs/" ++ a.file_name ++ "_" ++ column ++ "_pie_chart.png")
          (pieFigure column top_n c.cells) fs) := by
  simp [plot_pie_chart_eq hc top_n true fs]

theorem plot_histogram_save_eq {a : PyAnalyzer} {column : String} {c : Column}
    (hc : a.df.getCol column = some c) (hnum : is_numeric_dtype c.dtype = true)
    (bins : Nat) (fs : FileStore) :
    a.plot_histogram column bins true fs =
      .ok (histFigure column bins c.cells,
        savefig ("outputs/" ++ a.file_name ++ "_" ++ column ++ "_histogram.png")
          (histFigure column bins c.cells) fs) := by
  simp [plot_histogram_eq hc hnum bins true fs]

/-- C7: with persistence enabled on a valid column — any present column for
the bar and pie charts, a present numeric-dtype column for the histogram —
each chart method writes exactly one PNG at
`outputs/<display-name>_<column>_<chart-kind>.png` — the module-level
bootstrap creates `outputs` when absent — leaving every other path and the
directory set untouched; repeating the call returns the same figure and the
same store: the file is overwritten, not duplicated, and no error is
raised. -/
theorem chart_persistence
    (a : PyAnalyzer) (column : String) (c : Column) (top_n bins : Nat) (fs : FileStore)
    (hc : a.df.getCol column = some c) :
    ("outputs" ∈ (ensureOutputsDir fs).dirs) ∧
    (∃ fig fs1, a.plot_bar_chart column top_n true fs = .ok (fig, fs1) ∧
      fs1.files ("outputs/" ++ a.file_name ++ "_" ++ column ++ "_bar_chart.png") =
        some ⟨fig⟩ ∧
      (∀ q, q ≠ "outputs/" ++ a.file_name ++ "_" ++ column ++ "_bar_chart.png" →
        fs1.files q = fs.files q) ∧
      fs1.dirs = fs.dirs ∧
      a.plot_bar_chart column top_n true fs1 = .ok (fig, fs1)) ∧
    (∃ fig fs2, a.plot_pie_chart column top_n true fs = .ok (fig, fs2) ∧
      fs2.files ("outputs/" ++ a.file_name ++ "_" ++ column ++ "_pie_chart.png") =
        some ⟨fig⟩ ∧
      (∀ q, q ≠ "outputs/" ++ a.file_name ++ "_" ++ column ++ "_pie_chart.png" →
        fs2.files q = fs.files q) ∧
      fs2.dirs = fs.dirs ∧
      a.plot_pie_chart column top_n true fs2 = .ok (fig, fs2)) ∧
    (is_numeric_dtype c.dtype = true →
      ∃ fig fs3, a.plot_histogram column bins true fs = .ok (fig, fs3) ∧
      fs3.files ("outputs/" ++ a.file_name ++ "_" ++ column ++ "_histogram.png") =
        some ⟨fig⟩ ∧
      (∀ q, q ≠ "outputs/" ++ a.file_name ++ "_" ++ column ++ "_histogram.png" →
        fs3.files q = fs.files q) ∧
      fs3.dirs = fs.dirs ∧
      a.plot_histogram column bins true fs3 = .ok (fig, fs3)) := by
  refine ⟨?_, ?_, ?_, ?_⟩
  · rw [ensureOutputsDir]
    by_cases h : "outputs" ∈ fs.dirs
    · rw [if_pos h]; exact h
    · rw [if_neg h]; exact List.mem_cons_self _ _
  · obtain ⟨h1, h2, h3, h4⟩ := savefig_spec
      ("outputs/" ++ a.file_name ++ "_" ++ column ++ "_bar_chart.png")
      (barFigure column top_n c.cells) fs
    refine ⟨barFigure column top_n c.cells, _,
      plot_bar_chart_save_eq hc top_n fs, h1, h2, h3, ?_⟩
    rw [plot_bar_chart_save_eq hc top_n _, h4]
  · obtain ⟨h1, h2, h3, h4⟩ := savefig_spec
      ("outputs/" ++ a.file_name ++ "_" ++ column ++ "_pie_chart.png")
      (pieFigure column top_n c.cells) fs
    refine ⟨pieFigure column top_n c.cells, _,
      plot_pie_chart_save_eq hc top_n fs, h1, h2, h3, ?_⟩
    rw [plot_pie_chart_save_eq hc top_n _, h4]
  · intro hnum
    obtain ⟨h1, h2, h3, h4⟩ := savefig_spec
      ("outputs/" ++ a.file_name ++ "_" ++ column ++ "_histogram.png")
      (histFigure column bins c.cells) fs
    refine ⟨histFigure column bins c.cells, _,
      plot_histogram_save_eq hc hnum bins fs, h1, h2, h3, ?_⟩
    rw [plot_histogram_save_eq hc hnum bins _, h4]

/-- Witness for C7 on the textual `city` column over an empty store: the
bar-chart persistence conjunct at a categorical column. -/
theorem chart_persistence_witness :
    exA.df.getCol "city" = some cityCol ∧
    ("outputs" ∈ (ensureOutputsDir exFs0).dirs) ∧
    (∃ fig fs1, exA.plot_bar_chart "city" 10 true exFs0 = .ok (fig, fs1) ∧
      fs1.files ("outputs/" ++ exA.file_name ++ "_" ++ "city" ++ "_bar_chart.png") =
        some ⟨fig⟩ ∧
      (∀ q, q ≠ "outputs/" ++ exA.file_name ++ "_" ++ "city" ++ "_bar_chart.png" →
        fs1.files q = exFs0.files q) ∧
      fs1.dirs = exFs0.dirs ∧
      exA.plot_bar_chart "city" 10 true fs1 = .ok (fig, fs1)) := by
  have h := chart_persistence exA "city" cityCol 10 10 exFs0 (by decide)
  exact ⟨by decide, h.1, h.2.1⟩

/-- C8: `generate_summary` is deterministic — it is a function of the
analyzer's dataset and display name alone, so repeated calls on an
unchanged analyzer (and calls on any analyzer with the same content)
return identical summaries. -/
theorem generate_summary_deterministic (a b : PyAnalyzer)
    (hdf : a.df = b.df) (hname : a.file_name = b.file_name) :
    a.generate_summary = b.generate_summary := by
  cases a
  cases b
  cases hdf
  cases hname
  rfl

/-- Witness for C8: two calls on the fixture analyzer agree. -/
theorem generate_summary_deterministic_witness :
    exA.generate_summary = exA.generate_summary :=
  generate_summary_deterministic exA exA rfl rfl

/-- C9: every operation — summary or chart, with any arguments and any
persistence choice — leaves the analyzer's dataset and display name
unchanged: the method bodies never assign to `self`. -/
theorem operations_preserve_analyzer (a : PyAnalyzer) (fs : FileStore) (op : Op) :
    (runOp a fs op).1 = a ∧ (runOp a fs op).1.df = a.df ∧
    (runOp a fs op).1.file_name = a.file_name := by
  cases op <;> exact ⟨rfl, rfl, rfl⟩

/-- C10: when `topN` exceeds the number of distinct values, the bar and pie
charts succeed and select all distinct (non-null) values: the `head`
truncation returns the whole `value_counts` ranking. -/
theorem bar_pie_topN_truncation
    (a : PyAnalyzer) (column : String) (c : Column) (top_n : Nat) (save : Bool)
    (fs : FileStore) (hc : a.df.getCol column = some c)
    (hgt : (firstUniques (dropna c.cells)).length < top_n) :
    (value_counts c.cells).take top_n = value_counts c.cells ∧
    (∃ fs1, a.plot_bar_chart column top_n save fs =
        .ok (Figure.barChart (value_counts c.cells)
          ("Bar Chart of " ++ column ++ " (Top " ++ toString top_n ++ ")") "Count" column,
          fs1)) ∧
    (∃ fs2 slices, a.plot_pie_chart column top_n save fs =
        .ok (Figure.pieChart slices
          ("Pie Chart of " ++ column ++ " (Top " ++ toString top_n ++ ")"), fs2) ∧
      slices.map (fun s => (s.1, s.2.1)) = value_counts c.cells) ∧
    ((value_counts c.cells).map Prod.fst).Nodup ∧
    (∀ v, v ∈ (value_counts c.cells).map Prod.fst ↔ v ∈ dropna c.cells) := by
  have htake : (value_counts c.cells).take top_n = value_counts c.cells := by
    apply List.take_of_length_le
    rw [value_counts_length]
    exact Nat.le_of_lt hgt
  refine ⟨htake, ?_,
    ⟨_, pieSlices top_n c.cells, plot_pie_chart_eq hc top_n save fs, ?_⟩,
    value_counts_keys_nodup _, mem_value_counts_keys _⟩
  · have h := plot_bar_chart_eq hc top_n save fs
    rw [barFigure, htake] at h
    exact ⟨_, h⟩
  · rw [pieSlices, List.map_map]
    exact (List.map_id'' (fun _ => rfl) _).trans htake

/-- Witness for C10: `topN = 10` exceeds the 3 distinct values of `city`. -/
theorem bar_pie_topN_truncation_witness :
    exA.df.getCol "city" = some cityCol ∧
    (firstUniques (dropna cityCol.cells)).length < 10 ∧
    (value_counts cityCol.cells).take 10 = value_counts cityCol.cells :=
  ⟨by decide, by decide,
    (bar_pie_topN_truncation exA "city" cityCol 10 false exFs0
      (by decide) (by decide)).1⟩
